import Mathlib

/-!
Verification of the Factory-to-Kimi proxy (`src/factory-kimi-proxy.ts`).

The file shallowly embeds the protocol translator of the proxy:

* `convertAnthropicToOpenAI`   — the request translator (source lines 278–311),
* `convertOpenAIToAnthropic`   — the non-streaming response translator (313–329),
* `convertOpenAIStreamChunkToAnthropic` — the per-frame stream translator (226–276),
* `handleStreamingResponse`    — the streaming re-framer (145–224), modelled as a
  pure function from the list of decoded text chunks delivered by the upstream
  reads to the list of translated events,
* the `/v1/messages` backend-response dispatch (82–105) and the pass-through
  branch (118–141).

JavaScript idioms are embedded explicitly: `x || d` on strings/numbers treats
`""`/`0` as absent (`jsOrStr`, `jsOrNat`), `x ?? d` only replaces a missing
value (`Option.getD`), and `if (x)` on an optional string is `strTruthy`.
`JSON.parse` of a data line is an external runtime function and is therefore a
parameter `decode : String → Option StreamChunk` of the re-framer; likewise the
wall-clock generated fallback message id `msg_${Date.now()}` is a parameter
`nowId`.  Text is modelled at the level of decoded characters (`List Char`):
the streaming UTF-8 decoder used by the source (`TextDecoder` with
`stream: true`) is concatenation-invariant, so byte chunking is faithfully
represented by character chunking.
-/

namespace KimiProxy

/-- JS truthiness of an optional string field: `undefined` and `""` are falsy. -/
def strTruthy : Option String → Bool
  | some s => s != ""
  | none => false

/-- JS `o || d` where `o` is an optional string: `undefined` and `""` give `d`. -/
def jsOrStr (o : Option String) (d : String) : String :=
  match o with
  | some s => if s == "" then d else s
  | none => d

/-- JS `o || d` where `o` is an optional number: `undefined` and `0` give `d`. -/
def jsOrNat (o : Option Nat) (d : Nat) : Nat :=
  match o with
  | some v => if v == 0 then d else v
  | none => d

/-! ## Data model: backend (OpenAI-shaped) stream frames and responses -/

/-- Token-usage counters of a backend payload (`usage`). -/
structure Usage where
  prompt_tokens : Option Nat
  completion_tokens : Option Nat
  deriving DecidableEq, Repr

/-- The `delta` object of one streamed choice. -/
structure Delta where
  content : Option String
  deriving DecidableEq, Repr

/-- One entry of a backend `choices` array (streaming shape). -/
structure Choice where
  index : Nat
  delta : Option Delta
  finish_reason : Option String
  deriving DecidableEq, Repr

/-- One decoded backend stream frame (the argument `chunk` of
`convertOpenAIStreamChunkToAnthropic`). -/
structure StreamChunk where
  id : Option String
  choices : List Choice
  usage : Option Usage
  deriving DecidableEq, Repr

/-- The `message` object of a non-streaming backend choice. -/
structure RespMessage where
  content : Option String
  deriving DecidableEq, Repr

/-- One entry of a backend `choices` array (non-streaming shape). -/
structure RespChoice where
  message : Option RespMessage
  finish_reason : Option String
  deriving DecidableEq, Repr

/-- A complete non-streaming backend response body (`kimiData`). -/
structure OpenAIResponse where
  choices : List RespChoice
  usage : Option Usage
  deriving DecidableEq, Repr

/-! ## Data model: caller (Anthropic-shaped) requests -/

/-- One segment of an array-valued `system` field (`{ text: ... }`). -/
structure SystemSegment where
  text : String
  deriving DecidableEq, Repr

/-- The caller's `system` field: a plain string or a list of text segments. -/
inductive SystemField where
  | str (s : String)
  | segs (l : List SystemSegment)
  deriving DecidableEq, Repr

/-- One content block of a caller message: `c.text` and `c.source?.data`. -/
structure ContentBlock where
  text : Option String
  sourceData : Option String
  deriving DecidableEq, Repr

/-- A caller message's `content`: a plain string or a list of content blocks. -/
inductive MessageContent where
  | str (s : String)
  | blocks (l : List ContentBlock)
  deriving DecidableEq, Repr

/-- One caller message (`role` plus `content`). -/
structure AnthropicMessage where
  role : String
  content : MessageContent
  deriving DecidableEq, Repr

/-- The caller-shaped `/v1/messages` request body. -/
structure AnthropicBody where
  system : Option SystemField
  messages : List AnthropicMessage
  model : Option String
  max_tokens : Option Nat
  temperature : Option Rat
  top_p : Option Rat
  deriving DecidableEq, Repr

/-- One backend-shaped message produced by the request translator. -/
structure OpenAIMessage where
  role : String
  content : String
  deriving DecidableEq, Repr

/-- The backend-shaped request body produced by the request translator. -/
structure OpenAIBody where
  model : String
  messages : List OpenAIMessage
  max_tokens : Nat
  temperature : Rat
  top_p : Rat
  stream : Bool
  deriving DecidableEq, Repr

/-! ## Request translator (source lines 278–311) -/

/-- Flattening of one content block: `c.text || c.source?.data || ""`. -/
def blockToText (c : ContentBlock) : String :=
  jsOrStr c.text (jsOrStr c.sourceData "")

/-- Flattening of a message's content into one string (lines 293–295). -/
def contentToText : MessageContent → String
  | .str s => s
  | .blocks l => String.join (l.map blockToText)

/-- The leading system message pushed by lines 282–289.  A present string
`system` is guarded by JS truthiness (`if (anthropicBody.system)`), so the
empty string contributes nothing; an array value is always truthy and is
joined with newlines. -/
def systemMessages : Option SystemField → List OpenAIMessage
  | some (.str s) => if s == "" then [] else [⟨"system", s⟩]
  | some (.segs l) => [⟨"system", String.intercalate "\n" (l.map (·.text))⟩]
  | none => []

/-- Role collapsing of line 298: `msg.role === "assistant" ? "assistant" : "user"`. -/
def collapseRole (r : String) : String :=
  if r == "assistant" then "assistant" else "user"

/-- `convertAnthropicToOpenAI` (lines 278–311). -/
def convertAnthropicToOpenAI (anthropicBody : AnthropicBody) (stream : Bool) : OpenAIBody :=
  { model := jsOrStr anthropicBody.model "kimi-for-coding"
    messages :=
      systemMessages anthropicBody.system ++
        anthropicBody.messages.map (fun msg => ⟨collapseRole msg.role, contentToText msg.content⟩)
    max_tokens := jsOrNat anthropicBody.max_tokens 8192
    temperature := anthropicBody.temperature.getD (7 / 10 : Rat)
    top_p := anthropicBody.top_p.getD 1
    stream := stream }

/-! ## Completion-reason mapping and the non-streaming response translator -/

/-- The completion-reason mapping named by the specification: the backend's
`"stop"` maps to `"end_turn"`, everything else (including absence) to null.
Both translators inline `finishReason === "stop" ? "end_turn" : null`; the
theorems below show both agree with this function. -/
def mapStopReason (r : Option String) : Option String :=
  if r == some "stop" then some "end_turn" else none

/-- The caller-shaped non-streaming response built by
`convertOpenAIToAnthropic` (lines 313–329). -/
structure AnthropicResponse where
  id : String
  model : Option String
  contentText : String
  stop_reason : Option String
  input_tokens : Nat
  output_tokens : Nat
  deriving DecidableEq, Repr

/-- `convertOpenAIToAnthropic` (lines 313–329).  `nowId` stands for the
call-scoped generated identifier `msg_${Date.now()}`; `origModel` is
`originalBody.model`. -/
def convertOpenAIToAnthropic (nowId : String) (openaiData : OpenAIResponse)
    (origModel : Option String) : AnthropicResponse :=
  { id := nowId
    model := origModel
    contentText := jsOrStr ((openaiData.choices.head?).bind fun c => c.message.bind (·.content)) ""
    stop_reason :=
      if ((openaiData.choices.head?).bind (·.finish_reason)) == some "stop" then
        some "end_turn"
      else none
    input_tokens := ((openaiData.usage.bind (·.prompt_tokens)).getD 0)
    output_tokens := ((openaiData.usage.bind (·.completion_tokens)).getD 0) }

/-! ## Streaming per-frame translation (lines 226–276) -/

/-- One caller-shaped translated stream event. -/
inductive AnthropicEvent where
  | messageStart (id : String) (model : Option String)
  | contentBlockDelta (index : Nat) (text : String)
  | messageDelta (stop_reason : Option String) (output_tokens : Nat)
  | messageStop
  deriving DecidableEq, Repr

/-- `convertOpenAIStreamChunkToAnthropic` (lines 226–276), with classification
order exactly as in the source: text first (early return), then start-of-stream,
then completion reason, else nothing. -/
def convertOpenAIStreamChunkToAnthropic (nowId : String) (chunk : StreamChunk)
    (origModel : Option String) : Option AnthropicEvent :=
  match chunk.choices.head? with
  | none => none
  | some choice =>
    match choice.delta with
    | none => none
    | some delta =>
      if strTruthy delta.content then
        some (.contentBlockDelta 0 (delta.content.getD ""))
      else if choice.index == 0 && !strTruthy delta.content && !strTruthy choice.finish_reason then
        some (.messageStart (jsOrStr chunk.id nowId) origModel)
      else if strTruthy choice.finish_reason then
        some (.messageDelta
          (if choice.finish_reason == some "stop" then some "end_turn" else none)
          ((chunk.usage.bind (·.completion_tokens)).getD 0))
      else none

/-! ## The streaming re-framer (lines 145–224) -/

/-- `JSON.parse` composed with the implicit decoding of a payload into a
`StreamChunk`: an external runtime function, taken as a parameter. -/
abbrev DecodeFn := String → Option StreamChunk

/-- `buffer.split("\n")` followed by `buffer = lines.pop()` (lines 160–161):
the completed lines together with the new unterminated tail. -/
def splitNl : List Char → List (List Char) × List Char
  | [] => ([], [])
  | c :: cs =>
    if c = '\n' then
      ([] :: (splitNl cs).1, (splitNl cs).2)
    else
      match splitNl cs with
      | ([], t) => ([], c :: t)
      | (l :: ls, t) => ((c :: l) :: ls, t)

/-- Events contributed by one completed line (lines 163–185): non-data lines
are discarded, the `[DONE]` sentinel emits a `message_stop`, any other payload
is decoded and translated, a payload that fails to decode contributes nothing. -/
def lineEvents (decode : DecodeFn) (nowId : String) (origModel : Option String)
    (line : List Char) : List AnthropicEvent :=
  if ("data: ".data).isPrefixOf line then
    let data := line.drop 6
    if data == "[DONE]".data then [.messageStop]
    else
      match decode (String.mk data) with
      | some chunk => (convertOpenAIStreamChunkToAnthropic nowId chunk origModel).toList
      | none => []
  else []

/-- One iteration of the read loop (lines 156–185): append the chunk to the
buffer, split off the completed lines, emit their events in order, keep the
tail as the new buffer. -/
def processChunk (decode : DecodeFn) (nowId : String) (origModel : Option String)
    (st : List Char × List AnthropicEvent) (chunk : List Char) :
    List Char × List AnthropicEvent :=
  ((splitNl (st.1 ++ chunk)).2,
    st.2 ++ ((splitNl (st.1 ++ chunk)).1).flatMap (lineEvents decode nowId origModel))

/-- Events contributed by the remaining buffer after the upstream closes
(lines 188–202).  Note the asymmetry with the loop body: a trailing
`data: [DONE]` without a newline emits nothing here. -/
def flushBufferEvents (decode : DecodeFn) (nowId : String) (origModel : Option String)
    (buf : List Char) : List AnthropicEvent :=
  if ("data: ".data).isPrefixOf buf then
    let data := buf.drop 6
    if data == "[DONE]".data then []
    else
      match decode (String.mk data) with
      | some chunk => (convertOpenAIStreamChunkToAnthropic nowId chunk origModel).toList
      | none => []
  else []

/-- `handleStreamingResponse` (lines 145–224) as a function from the list of
decoded text chunks delivered by the successive upstream reads to the ordered
list of translated events flushed to the caller: the read loop, then the
remaining-buffer handling, then the unconditional final `message_stop`
(lines 204–206). -/
def handleStreamingResponse (decode : DecodeFn) (nowId : String)
    (origModel : Option String) (chunks : List (List Char)) : List AnthropicEvent :=
  ((chunks.foldl (processChunk decode nowId origModel) ([], [])).2) ++
    flushBufferEvents decode nowId origModel
      ((chunks.foldl (processChunk decode nowId origModel) ([], [])).1) ++
    [.messageStop]

/-! ## The `/v1/messages` backend-response dispatch (lines 82–105) -/

/-- `Response.ok` of the Fetch API: the status lies in the success range. -/
def responseOk (status : Nat) : Bool :=
  200 ≤ status && status < 300

/-- A backend response as seen by the proxy: status code and raw body bytes. -/
structure BackendResponse where
  status : Nat
  body : String
  deriving DecidableEq, Repr

/-- The body of the response returned to the caller on the non-streaming
`/v1/messages` path: raw forwarded bytes, a translated response, or the
locally generated `proxy_error` envelope of the catch block (lines 107–115). -/
inductive CallerBody where
  | raw (bytes : String)
  | translated (r : AnthropicResponse)
  | errorEnvelope (message : String)
  deriving DecidableEq, Repr

/-- The response returned to the caller on the non-streaming path. -/
structure CallerResponse where
  status : Nat
  body : CallerBody
  deriving DecidableEq, Repr

/-- Dispatch on the backend response for the non-streaming `/v1/messages`
path (lines 82–105 with the catch block of 107–115): a non-ok status forwards
status and body bytes verbatim; an ok status parses the body
(`kimiResponse.json()`, the external parse being the parameter `decode`) and
translates it, a parse failure producing the 500 `proxy_error` envelope. -/
def handleMessagesResponse (decode : String → Option OpenAIResponse) (nowId : String)
    (origModel : Option String) (resp : BackendResponse) : CallerResponse :=
  if !responseOk resp.status then
    { status := resp.status, body := .raw resp.body }
  else
    match decode resp.body with
    | some kimiData =>
        { status := 200, body := .translated (convertOpenAIToAnthropic nowId kimiData origModel) }
    | none => { status := 500, body := .errorEnvelope "JSON Parse error" }

/-! ## The pass-through branch (lines 118–141) -/

/-- The hardcoded credential of line 7. -/
def KIMI_API_KEY : String :=
  "sk-kimi-Rqsr9OjMKB8yrmvHPfdfkvRetR81bZdpi7hZSYttXxUcM0D5JBli109yQ5MgMH8k"

/-- The backend base address of line 8. -/
def KIMI_BASE_URL : String := "https://api.kimi.com/coding/v1"

/-- The CORS headers added to every response (lines 18–22). -/
def corsHeaders : List (String × String) :=
  [("Access-Control-Allow-Origin", "*"),
   ("Access-Control-Allow-Methods", "GET, POST, PUT, PATCH, DELETE, OPTIONS"),
   ("Access-Control-Allow-Headers", "*")]

/-- The fixed header set sent on the pass-through forward (lines 123–128). -/
def kimiHeaders : List (String × String) :=
  [("Authorization", "Bearer " ++ KIMI_API_KEY),
   ("Content-Type", "application/json"),
   ("User-Agent", "claude-code/2.0"),
   ("Host", "api.kimi.com")]

/-- An inbound request as the pass-through branch sees it; the body is opaque
(`request.body` is forwarded as a stream without decoding), hence a type
parameter. -/
structure HttpRequest (β : Type) where
  method : String
  pathname : String
  search : String
  headers : List (String × String)
  body : β
  deriving DecidableEq, Repr

/-- The outbound request issued by the pass-through branch. -/
structure ForwardedRequest (β : Type) where
  url : String
  method : String
  headers : List (String × String)
  body : β
  deriving DecidableEq, Repr

/-- A backend (or outbound) response with an opaque body. -/
structure HttpResponse (β : Type) where
  status : Nat
  headers : List (String × String)
  body : β
  deriving DecidableEq, Repr

/-- JS `String.replace(pat, repl)`: replace the first occurrence only. -/
def replaceFirst (pat repl : List Char) : List Char → List Char
  | [] => []
  | c :: cs =>
    if pat.isPrefixOf (c :: cs) then repl ++ (c :: cs).drop pat.length
    else c :: replaceFirst pat repl cs

/-- The pass-through target URL (line 120):
`KIMI_BASE_URL + url.pathname.replace("/v1", "") + url.search`. -/
def passThroughTarget (pathname search : String) : String :=
  KIMI_BASE_URL ++ String.mk (replaceFirst "/v1".data "".data pathname.data) ++ search

/-- The outbound request built by the pass-through branch (lines 120–130):
original method and body, but the fixed `kimiHeaders` in place of the caller's
headers. -/
def forwardedRequest {β : Type} (req : HttpRequest β) : ForwardedRequest β :=
  { url := passThroughTarget req.pathname req.search
    method := req.method
    headers := kimiHeaders
    body := req.body }

/-- The header merge of line 134: `{...corsHeaders, ...entries}` — entries of
the second list override same-keyed entries of the first. -/
def mergeHeaders (base ext : List (String × String)) : List (String × String) :=
  base.filter (fun p => ext.all (fun q => q.1 != p.1)) ++ ext

/-- The pass-through branch (lines 118–141): issue the forwarded request, then
return the backend's status and body with the CORS headers merged under the
backend's headers. -/
def passThrough {β : Type} (backend : ForwardedRequest β → HttpResponse β)
    (req : HttpRequest β) : HttpResponse β :=
  let resp := backend (forwardedRequest req)
  { status := resp.status
    headers := mergeHeaders corsHeaders resp.headers
    body := resp.body }

/-- The caller's headers with only the credential substituted — the forwarding
behaviour the specification asserts, stated in the spec's words for comparison
with `forwardedRequest`. -/
def specForwardHeaders (hs : List (String × String)) : List (String × String) :=
  hs.map (fun p => if p.1 == "Authorization" then (p.1, "Bearer " ++ KIMI_API_KEY) else p)

/-! ## Concrete test fixtures -/

/-- The first frame of a stream: choice index 0, an empty delta, no reason. -/
def startFrame : StreamChunk :=
  ⟨some "chatcmpl-1", [⟨0, some ⟨none⟩, none⟩], none⟩

/-- A frame carrying incremental text. -/
def textFrame (s : String) : StreamChunk :=
  ⟨some "chatcmpl-1", [⟨0, some ⟨some s⟩, none⟩], none⟩

/-- A frame carrying the completion reason `"stop"`. -/
def finishFrame : StreamChunk :=
  ⟨some "chatcmpl-1", [⟨0, some ⟨none⟩, some "stop"⟩], none⟩

/-- A concrete decode function: payloads `f0`–`f4` decode to the fixture
frames, everything else fails to decode. -/
def testDecode : DecodeFn := fun s =>
  if s == "f0" then some startFrame
  else if s == "f1" then some (textFrame "He")
  else if s == "f2" then some (textFrame "llo")
  else if s == "f3" then some (textFrame " world")
  else if s == "f4" then some finishFrame
  else none

/-- The full event-stream text of the C1 scenario: start frame, three text
frames, a completion-reason frame, then the terminal sentinel. -/
def c1Input : List Char :=
  "data: f0\ndata: f1\ndata: f2\ndata: f3\ndata: f4\ndata: [DONE]\n".data

/-- The event sequence the specification claims for the C1 scenario. -/
def c1ClaimedEvents : List AnthropicEvent :=
  [.messageStart "chatcmpl-1" (some "kimi-k2"),
   .contentBlockDelta 0 "He",
   .contentBlockDelta 0 "llo",
   .contentBlockDelta 0 " world",
   .messageDelta (some "end_turn") 0,
   .messageStop]

/-- Lines joined with the line terminator, as one fully terminated stream text. -/
def joinLines (ls : List (List Char)) : List Char :=
  (ls.map (fun l => l ++ ['\n'])).flatten

/-- A frame whose single choice has index 1 and carries text. -/
def idx1Frame : StreamChunk := ⟨some "chatcmpl-9", [⟨1, some ⟨some "hi"⟩, none⟩], none⟩

/-- A frame carrying both incremental text and a completion reason, plus usage. -/
def bothFrame : StreamChunk :=
  ⟨some "chatcmpl-2", [⟨0, some ⟨some "Hi"⟩, some "stop"⟩], some ⟨some 3, some 7⟩⟩

/-- A caller request with a system instruction and one user message. -/
def c5Body : AnthropicBody :=
  ⟨some (.str "You are helpful"), [⟨"user", .str "hi"⟩], some "kimi-k2", some 1024, none, none⟩

/-- A caller request with an explicit temperature of 0 and no max-tokens. -/
def c8Body : AnthropicBody := ⟨none, [], some "kimi-k2", none, some 0, some (1 / 2)⟩

/-- A caller request whose max output tokens are present and equal to 0. -/
def c8ZeroBody : AnthropicBody := ⟨none, [], none, some 0, none, none⟩

/-- An inbound pass-through request carrying a custom header and a credential. -/
def c4Req : HttpRequest Unit :=
  ⟨"GET", "/v1/usage", "", [("X-Custom-Header", "1"), ("Authorization", "Bearer old")], ()⟩

/-! ## Helper lemmas on line splitting and the read loop -/

/-- A text without a line terminator splits into no complete line and itself as tail. -/
theorem splitNl_no_newline {l : List Char} (h : '\n' ∉ l) : splitNl l = ([], l) := by
  induction l with
  | nil => rfl
  | cons c cs ih =>
    have hc : c ≠ '\n' := fun hc => h (hc ▸ List.mem_cons_self c cs)
    have hcs : '\n' ∉ cs := fun hm => h (List.mem_cons_of_mem c hm)
    simp [splitNl, hc, ih hcs]

/-- The tail left by `splitNl` never contains a line terminator. -/
theorem splitNl_tail_no_newline (l : List Char) : '\n' ∉ (splitNl l).2 := by
  induction l with
  | nil => simp [splitNl]
  | cons c cs ih =>
    by_cases hc : c = '\n'
    · simp [splitNl, hc, ih]
    · cases h : splitNl cs with
    | mk ls t =>
      cases ls with
      | nil =>
        simp [splitNl, hc, h]
        refine ⟨fun he => hc he.symm, ?_⟩
        intro hm
        exact ih (h ▸ hm)
      | cons l0 ls0 =>
        simp [splitNl, hc, h]
        intro hm
        exact ih (h ▸ hm)

/-- Compositionality of line splitting: splitting `a ++ b` yields the complete
lines of `a` followed by the lines obtained after carrying the tail of `a`
into `b`. -/
theorem splitNl_append (a b : List Char) :
    splitNl (a ++ b) =
      ((splitNl a).1 ++ (splitNl ((splitNl a).2 ++ b)).1,
        (splitNl ((splitNl a).2 ++ b)).2) := by
  induction a with
  | nil => simp [splitNl]
  | cons c cs ih =>
    by_cases hc : c = '\n'
    · subst hc
      simp [splitNl, ih]
    · cases h : splitNl cs with
    | mk ls t =>
      cases ls with
      | nil =>
        rw [h] at ih
        simp only at ih
        cases hX : splitNl (t ++ b) with
        | mk ls2 t2 =>
          rw [hX] at ih
          simp only at ih
          cases ls2 with
          | nil =>
            simp [splitNl, hc, h, ih, hX, List.cons_append]
          | cons l2 ls2' =>
            simp [splitNl, hc, h, ih, hX, List.cons_append]
      | cons l0 ls0 =>
        rw [h] at ih
        simp only at ih
        cases hX : splitNl (t ++ b) with
        | mk ls2 t2 =>
          rw [hX] at ih
          simp only at ih
          simp [splitNl, hc, h, ih, hX, List.cons_append]

/-- Two consecutive read-loop iterations behave like one iteration on the
concatenated chunk. -/
theorem processChunk_append (D : DecodeFn) (n : String) (m : Option String)
    (st : List Char × List AnthropicEvent) (a b : List Char) :
    processChunk D n m (processChunk D n m st a) b = processChunk D n m st (a ++ b) := by
  unfold processChunk
  simp only
  rw [← List.append_assoc, splitNl_append (st.1 ++ a) b]
  simp [List.flatMap_append, List.append_assoc]

/-- The whole read loop behaves like a single iteration on the concatenation of
all chunks, provided the starting buffer holds no line terminator. -/
theorem foldl_processChunk (D : DecodeFn) (n : String) (m : Option String)
    (chunks : List (List Char)) (st : List Char × List AnthropicEvent)
    (hb : '\n' ∉ st.1) :
    chunks.foldl (processChunk D n m) st = processChunk D n m st chunks.flatten := by
  induction chunks generalizing st with
  | nil =>
    cases st with
    | mk buf ev =>
      simp only [List.foldl_nil, List.flatten_nil, processChunk, List.append_nil]
      rw [splitNl_no_newline hb]
      simp
  | cons c cs ih =>
    have h2 : '\n' ∉ (processChunk D n m st c).1 := splitNl_tail_no_newline _
    simp only [List.foldl_cons, List.flatten_cons]
    rw [ih _ h2, processChunk_append]

/-- A list is a prefix of itself followed by anything. -/
theorem isPrefixOf_append_self (l t : List Char) : l.isPrefixOf (l ++ t) = true := by
  simp [List.isPrefixOf_iff_prefix]

/-- Splitting a terminator-free line, its terminator, and a remainder. -/
theorem splitNl_terminated {l : List Char} (hl : '\n' ∉ l) (rest : List Char) :
    splitNl ((l ++ ['\n']) ++ rest) = (l :: (splitNl rest).1, (splitNl rest).2) := by
  induction l with
  | nil => simp [splitNl]
  | cons c cs ih =>
    have hc : c ≠ '\n' := fun h => hl (h ▸ List.mem_cons_self c cs)
    have hcs : '\n' ∉ cs := fun h => hl (List.mem_cons_of_mem c h)
    have ihr := ih hcs
    simp only [List.cons_append]
    rw [splitNl, if_neg hc, ihr]

/-- A fully line-terminated text splits into exactly its lines with empty tail. -/
theorem splitNl_joinLines {ls : List (List Char)} (h : ∀ l ∈ ls, '\n' ∉ l) :
    splitNl (joinLines ls) = (ls, []) := by
  induction ls with
  | nil => simp [joinLines, splitNl]
  | cons l ls ih =>
    have hl : '\n' ∉ l := h l (List.mem_cons_self l ls)
    have hrest : ∀ x ∈ ls, '\n' ∉ x := fun x hx => h x (List.mem_cons_of_mem l hx)
    have ihr := ih hrest
    simp only [joinLines] at ihr ⊢
    simp only [List.map_cons, List.flatten_cons]
    rw [splitNl_terminated hl, ihr]

/-- An empty remaining buffer contributes no events at close. -/
theorem flushBufferEvents_nil (D : DecodeFn) (n : String) (m : Option String) :
    flushBufferEvents D n m [] = [] := rfl

/-- On a fully line-terminated stream the re-framer emits exactly the events of
each line in order, followed by the final closing event. -/
theorem handleStreamingResponse_joinLines (D : DecodeFn) (n : String) (m : Option String)
    {ls : List (List Char)} (h : ∀ l ∈ ls, '\n' ∉ l) :
    handleStreamingResponse D n m [joinLines ls] =
      ls.flatMap (lineEvents D n m) ++ [.messageStop] := by
  unfold handleStreamingResponse
  simp only [List.foldl_cons, List.foldl_nil]
  unfold processChunk
  simp only [List.nil_append]
  rw [splitNl_joinLines h]
  simp [flushBufferEvents_nil]

/-- A data-bearing line whose payload fails to decode contributes no events. -/
theorem lineEvents_malformed (D : DecodeFn) (n : String) (m : Option String)
    {bad : List Char} (hdec : D (String.mk bad) = none) (hdone : bad ≠ "[DONE]".data) :
    lineEvents D n m ("data: ".data ++ bad) = [] := by
  unfold lineEvents
  rw [isPrefixOf_append_self]
  have h6 : ("data: ".data ++ bad).drop 6 = bad := by
    have : (6 : Nat) = ("data: ".data).length := rfl
    rw [this, List.drop_left]
  simp only [if_true, h6]
  rw [if_neg]
  · rw [hdec]
  · simp [hdone]

/-! ## Claim theorems -/

/-- C1: the specification claims that feeding the frame sequence [start frame,
text "He", text "llo", text " world", completion reason "stop", terminal
sentinel] produces exactly the six events stream-start, three text deltas,
metadata update, stream-end, with exactly one stream-end per logical stream.
Evaluating the re-framer on that exact stream shows the code emits the claimed
sequence and then a second `message_stop`: one for the `[DONE]` sentinel and
one more unconditionally at upstream close, so the exactly-one-stream-end part
of the claim fails on the code. -/
theorem c1_duplicate_stream_end :
    handleStreamingResponse testDecode "msg_0" (some "kimi-k2") [c1Input] =
      c1ClaimedEvents ++ [AnthropicEvent.messageStop] ∧
    handleStreamingResponse testDecode "msg_0" (some "kimi-k2") [c1Input] ≠
      c1ClaimedEvents := by
  decide

/-- C2: the translated-event sequence depends only on the concatenation of the
read chunks — any partition of the stream text into reads, including one
character per read, yields exactly the output of a single full read — and after
each read the buffer holds exactly the unterminated tail of everything read so
far. -/
theorem c2_chunking_invariant (decode : DecodeFn) (nowId : String)
    (origModel : Option String) (chunks : List (List Char)) :
    handleStreamingResponse decode nowId origModel chunks =
      handleStreamingResponse decode nowId origModel [chunks.flatten]
    ∧ ∀ k : Nat,
        ((chunks.take k).foldl (processChunk decode nowId origModel) ([], [])).1 =
          (splitNl (chunks.take k).flatten).2 := by
  have h0 : '\n' ∉ (([], []) : List Char × List AnthropicEvent).1 := by simp
  constructor
  · unfold handleStreamingResponse
    rw [foldl_processChunk decode nowId origModel chunks ([], []) h0]
    simp only [List.foldl_cons, List.foldl_nil, List.flatten_cons, List.flatten_nil,
      List.append_nil]
  · intro k
    rw [foldl_processChunk decode nowId origModel (chunks.take k) ([], []) h0]
    simp [processChunk]

/-- C3 counterexample: a decodable frame whose single choice has index 1 and
carries text is translated to an incremental-text event whose index field is 0,
not the frame's choice index, refuting the claim that the event's index equals
the frame's choice index. -/
theorem c3_counterexample :
    convertOpenAIStreamChunkToAnthropic "msg_0" idx1Frame none =
      some (AnthropicEvent.contentBlockDelta 0 "hi") ∧
    (idx1Frame.choices.head?).map (·.index) = some 1 ∧ (0 : Nat) ≠ 1 := by decide

/-- C3 (amended): every decoded frame carrying (truthy) incremental text is
translated to exactly one incremental-text event whose text equals the frame's
text verbatim and whose index field is the constant 0, regardless of the
frame's choice index. -/
theorem c3_text_delta_amended (nowId : String) (chunk : StreamChunk) (origModel : Option String)
    (choice : Choice) (delta : Delta) (s : String)
    (hc : chunk.choices.head? = some choice) (hd : choice.delta = some delta)
    (ht : delta.content = some s) (hs : s ≠ "") :
    convertOpenAIStreamChunkToAnthropic nowId chunk origModel =
      some (AnthropicEvent.contentBlockDelta 0 s) := by
  simp [convertOpenAIStreamChunkToAnthropic, hc, hd, ht, strTruthy, hs]

/-- C3 witness: the amended theorem applied to the concrete frame carrying "He". -/
theorem c3_text_delta_amended_witness :
    (textFrame "He").choices.head? = some ⟨0, some ⟨some "He"⟩, none⟩ ∧
    convertOpenAIStreamChunkToAnthropic "msg_0" (textFrame "He") (some "kimi-k2") =
      some (AnthropicEvent.contentBlockDelta 0 "He") :=
  ⟨by decide,
    c3_text_delta_amended "msg_0" (textFrame "He") (some "kimi-k2") ⟨0, some ⟨some "He"⟩, none⟩
      ⟨some "He"⟩ "He" (by decide) (by decide) (by decide) (by decide)⟩

/-- C4 counterexample: the pass-through branch does not forward the caller's
headers with only the credential substituted — a request carrying a custom
header is forwarded with the fixed header set instead — and the response
headers returned to the caller are not the backend's headers unchanged: a
backend response with no headers comes back with the CORS headers added. -/
theorem c4_counterexample :
    (forwardedRequest c4Req).headers ≠ specForwardHeaders c4Req.headers ∧
    (passThrough (fun f => ⟨200, [], f.body⟩) c4Req).headers ≠ ([] : List (String × String)) := by
  decide

/-- C4 (amended): for every backend and every inbound request, the pass-through
branch forwards the method and the body unchanged to the corresponding backend
path, but sends the fixed header set (credential, content type, user agent,
host) in place of the caller's headers; it returns the backend's status and
body unchanged, with the backend's headers merged over the permissive CORS
headers. -/
theorem c4_pass_through_amended {β : Type} (backend : ForwardedRequest β → HttpResponse β)
    (req : HttpRequest β) :
    (forwardedRequest req).method = req.method ∧
    (forwardedRequest req).body = req.body ∧
    (forwardedRequest req).url = passThroughTarget req.pathname req.search ∧
    (forwardedRequest req).headers = kimiHeaders ∧
    (passThrough backend req).status = (backend (forwardedRequest req)).status ∧
    (passThrough backend req).body = (backend (forwardedRequest req)).body ∧
    (passThrough backend req).headers =
      mergeHeaders corsHeaders (backend (forwardedRequest req)).headers :=
  ⟨rfl, rfl, rfl, rfl, rfl, rfl, rfl⟩

/-- C5 counterexample: a caller request with a system instruction produces a
downstream message list whose roles are ["system", "user"], so a third role
value beyond the caller-supplied and model-generated roles does appear. -/
theorem c5_counterexample :
    ((convertAnthropicToOpenAI c5Body false).messages.map (·.role)) = ["system", "user"] ∧
    ("system" : String) ≠ "user" ∧ ("system" : String) ≠ "assistant" := by decide

/-- C5 (amended): every downstream message converted from the caller's message
list has role "user" or "assistant" (any role other than "assistant" collapses
to "user"); in addition a present, truthy system instruction contributes
exactly one leading message with the distinct role "system". -/
theorem c5_roles_amended (body : AnthropicBody) (stream : Bool) :
    ((convertAnthropicToOpenAI body stream).messages.drop
        (systemMessages body.system).length).all
      (fun msg => msg.role == "user" || msg.role == "assistant") = true ∧
    ((systemMessages body.system).map (·.role) = [] ∨
      (systemMessages body.system).map (·.role) = ["system"]) := by
  constructor
  · unfold convertAnthropicToOpenAI
    simp only
    rw [List.drop_left]
    rw [List.all_eq_true]
    intro x hx
    rw [List.mem_map] at hx
    obtain ⟨msg, _, rfl⟩ := hx
    by_cases h : msg.role == "assistant"
    · simp [collapseRole, h]
    · simp [collapseRole, h]
  · cases hs : body.system with
    | none => left; rfl
    | some sf =>
      cases sf with
      | str s =>
        by_cases h : (s == "") = true
        · left; simp [systemMessages, h]
        · right; simp [systemMessages, h]
      | segs l => right; rfl

/-- C6: the completion-reason mapping is the total function sending "stop" to
"end_turn" and every other value, including absence, to null; the non-streaming
response translator's stop reason is exactly this function of the first
choice's finish reason, and every streaming metadata-update event carries
exactly this function of the first choice's finish reason. -/
theorem c6_stop_reason_mapping :
    mapStopReason (some "stop") = some "end_turn" ∧
    (∀ r : Option String, r ≠ some "stop" → mapStopReason r = none) ∧
    (∀ (nowId : String) (openaiData : OpenAIResponse) (origModel : Option String),
      (convertOpenAIToAnthropic nowId openaiData origModel).stop_reason =
        mapStopReason ((openaiData.choices.head?).bind (·.finish_reason))) ∧
    (∀ (nowId : String) (chunk : StreamChunk) (origModel : Option String)
        (sr : Option String) (tok : Nat),
      convertOpenAIStreamChunkToAnthropic nowId chunk origModel =
        some (AnthropicEvent.messageDelta sr tok) →
      sr = mapStopReason ((chunk.choices.head?).bind (·.finish_reason))) := by
  refine ⟨rfl, ?_, ?_, ?_⟩
  · intro r h
    simp [mapStopReason, h]
  · intro nowId openaiData origModel
    rfl
  · intro nowId chunk origModel sr tok h
    unfold convertOpenAIStreamChunkToAnthropic at h
    cases hc : chunk.choices.head? with
    | none => simp only [hc] at h; exact Option.noConfusion h
    | some choice =>
      simp only [hc] at h
      cases hd : choice.delta with
      | none => simp only [hd] at h; exact Option.noConfusion h
      | some delta =>
        simp only [hd] at h
        by_cases h1 : strTruthy delta.content = true
        · rw [if_pos h1] at h; simp at h
        · rw [if_neg h1] at h
          by_cases h2 : (choice.index == 0 && !strTruthy delta.content &&
              !strTruthy choice.finish_reason) = true
          · rw [if_pos h2] at h; simp at h
          · rw [if_neg h2] at h
            by_cases h3 : strTruthy choice.finish_reason = true
            · rw [if_pos h3] at h
              simp only [Option.some.injEq, AnthropicEvent.messageDelta.injEq] at h
              simp only [Option.some_bind]
              rw [mapStopReason]
              exact h.1.symm
            · rw [if_neg h3] at h; exact absurd h (by simp)

/-- C6 witness: the mapping and both translators evaluated at concrete inputs:
"length" maps to null, and the metadata event of the concrete finish frame
carries the mapped reason "end_turn". -/
theorem c6_stop_reason_mapping_witness :
    ((some "length" : Option String) ≠ some "stop") ∧ mapStopReason (some "length") = none ∧
    (convertOpenAIStreamChunkToAnthropic "msg_0" finishFrame none =
      some (AnthropicEvent.messageDelta (some "end_turn") 0)) ∧
    (some "end_turn" : Option String) =
      mapStopReason ((finishFrame.choices.head?).bind (·.finish_reason)) :=
  ⟨by decide, c6_stop_reason_mapping.2.1 (some "length") (by decide), by decide,
    c6_stop_reason_mapping.2.2.2 "msg_0" finishFrame none (some "end_turn") 0 (by decide)⟩

/-- C7: every backend response whose status is outside the success range is
returned to the caller with the identical status code and the identical body
bytes, never translated into the caller's shape. -/
theorem c7_non_ok_forwarded (decode : String → Option OpenAIResponse) (nowId : String)
    (origModel : Option String) (resp : BackendResponse)
    (h : responseOk resp.status = false) :
    handleMessagesResponse decode nowId origModel resp =
      { status := resp.status, body := CallerBody.raw resp.body } := by
  unfold handleMessagesResponse
  rw [h]
  simp

/-- C7 witness: a concrete 404 backend response is forwarded verbatim. -/
theorem c7_non_ok_forwarded_witness :
    responseOk 404 = false ∧
    handleMessagesResponse (fun _ => none) "msg_0" none ⟨404, "rate limited"⟩ =
      { status := 404, body := CallerBody.raw "rate limited" } :=
  ⟨by decide, c7_non_ok_forwarded (fun _ => none) "msg_0" none ⟨404, "rate limited"⟩ (by decide)⟩

/-- C8 counterexample: a caller request whose max output tokens are present and
equal to 0 is translated with max tokens 8192, refuting the claim that a
present generation parameter is copied through whatever its value, including 0. -/
theorem c8_counterexample :
    c8ZeroBody.max_tokens = some 0 ∧
    (convertAnthropicToOpenAI c8ZeroBody false).max_tokens = 8192 ∧ (8192 : Nat) ≠ 0 := by
  decide

/-- C8 (amended): temperature and top-p are copied through whenever present,
including 0, and default to 0.7 and 1 when absent; max output tokens are copied
through when present and non-zero but default to 8192 when absent or 0; the
model identifier is copied through when present and non-empty and falls back to
the fixed identifier when absent or empty. -/
theorem c8_parameter_defaults_amended (body : AnthropicBody) (stream : Bool) :
    (∀ t : Rat, body.temperature = some t →
      (convertAnthropicToOpenAI body stream).temperature = t) ∧
    (body.temperature = none →
      (convertAnthropicToOpenAI body stream).temperature = 7 / 10) ∧
    (∀ q : Rat, body.top_p = some q → (convertAnthropicToOpenAI body stream).top_p = q) ∧
    (body.top_p = none → (convertAnthropicToOpenAI body stream).top_p = 1) ∧
    (∀ v : Nat, body.max_tokens = some v → v ≠ 0 →
      (convertAnthropicToOpenAI body stream).max_tokens = v) ∧
    ((body.max_tokens = none ∨ body.max_tokens = some 0) →
      (convertAnthropicToOpenAI body stream).max_tokens = 8192) ∧
    (∀ mo : String, body.model = some mo → mo ≠ "" →
      (convertAnthropicToOpenAI body stream).model = mo) ∧
    ((body.model = none ∨ body.model = some "") →
      (convertAnthropicToOpenAI body stream).model = "kimi-for-coding") := by
  refine ⟨?_, ?_, ?_, ?_, ?_, ?_, ?_, ?_⟩
  · intro t h; simp [convertAnthropicToOpenAI, h]
  · intro h; simp [convertAnthropicToOpenAI, h]
  · intro q h; simp [convertAnthropicToOpenAI, h]
  · intro h; simp [convertAnthropicToOpenAI, h]
  · intro v h hv; simp [convertAnthropicToOpenAI, jsOrNat, h, hv]
  · intro h
    rcases h with h | h <;> simp [convertAnthropicToOpenAI, jsOrNat, h]
  · intro mo h hm; simp [convertAnthropicToOpenAI, jsOrStr, h, hm]
  · intro h
    rcases h with h | h <;> simp [convertAnthropicToOpenAI, jsOrStr, h]

/-- C8 witness: a present temperature of 0 is copied through, and absent max
output tokens default to 8192, on a concrete request. -/
theorem c8_parameter_defaults_amended_witness :
    c8Body.temperature = some 0 ∧
    (convertAnthropicToOpenAI c8Body true).temperature = 0 ∧
    c8Body.max_tokens = none ∧
    (convertAnthropicToOpenAI c8Body true).max_tokens = 8192 :=
  ⟨rfl, (c8_parameter_defaults_amended c8Body true).1 0 rfl, rfl,
    (c8_parameter_defaults_amended c8Body true).2.2.2.2.2.1 (Or.inl rfl)⟩

/-- C9: a data-bearing line whose payload fails to decode contributes no
translated event and does not terminate the stream: the output on a stream
containing such a line equals the output on the same stream with the line
removed, so all valid frames before and after it produce exactly their usual
events. -/
theorem c9_malformed_line_dropped (D : DecodeFn) (n : String) (m : Option String)
    (pre post : List (List Char)) (bad : List Char)
    (hpre : ∀ l ∈ pre, '\n' ∉ l) (hpost : ∀ l ∈ post, '\n' ∉ l)
    (hbad : '\n' ∉ bad)
    (hdec : D (String.mk bad) = none) (hdone : bad ≠ "[DONE]".data) :
    handleStreamingResponse D n m [joinLines (pre ++ ("data: ".data ++ bad) :: post)] =
      handleStreamingResponse D n m [joinLines (pre ++ post)] := by
  have hbadline : '\n' ∉ "data: ".data ++ bad := by
    intro hm
    rcases List.mem_append.1 hm with h1 | h2
    · exact (by decide : '\n' ∉ "data: ".data) h1
    · exact hbad h2
  have hall : ∀ l ∈ pre ++ ("data: ".data ++ bad) :: post, '\n' ∉ l := by
    intro l hl
    rcases List.mem_append.1 hl with h1 | h2
    · exact hpre l h1
    · rcases List.mem_cons.1 h2 with h3 | h4
      · exact h3 ▸ hbadline
      · exact hpost l h4
  have hall2 : ∀ l ∈ pre ++ post, '\n' ∉ l := by
    intro l hl
    rcases List.mem_append.1 hl with h1 | h2
    · exact hpre l h1
    · exact hpost l h2
  rw [handleStreamingResponse_joinLines D n m hall,
    handleStreamingResponse_joinLines D n m hall2]
  simp only [List.flatMap_append, List.flatMap_cons,
    lineEvents_malformed D n m hdec hdone, List.nil_append]

/-- C9 witness: a concrete stream with the undecodable payload "oops"
interleaved between two valid data lines yields exactly the events of the
stream without it. -/
theorem c9_malformed_line_dropped_witness :
    testDecode (String.mk "oops".data) = none ∧ "oops".data ≠ "[DONE]".data ∧
    handleStreamingResponse testDecode "msg_0" (some "kimi-k2")
        [joinLines (["data: f1".data] ++ ("data: ".data ++ "oops".data) :: ["data: f4".data])] =
      handleStreamingResponse testDecode "msg_0" (some "kimi-k2")
        [joinLines (["data: f1".data] ++ ["data: f4".data])] :=
  ⟨by decide, by decide,
    c9_malformed_line_dropped testDecode "msg_0" (some "kimi-k2") ["data: f1".data]
      ["data: f4".data] "oops".data (by decide) (by decide) (by decide) (by decide) (by decide)⟩

/-- C10: when a decoded frame carries both (truthy) incremental text and a
(truthy) completion reason, the translation is exactly the incremental-text
event: the text classification is checked first and returns immediately, so the
frame's completion reason and usage counters are discarded. -/
theorem c10_text_shadows_finish_reason (nowId : String) (chunk : StreamChunk)
    (origModel : Option String) (choice : Choice) (delta : Delta) (s fr : String)
    (hc : chunk.choices.head? = some choice) (hd : choice.delta = some delta)
    (ht : delta.content = some s) (hs : s ≠ "")
    (hf : choice.finish_reason = some fr) (hfr : fr ≠ "") :
    convertOpenAIStreamChunkToAnthropic nowId chunk origModel =
      some (AnthropicEvent.contentBlockDelta 0 s) := by
  simp [convertOpenAIStreamChunkToAnthropic, hc, hd, ht, strTruthy, hs]

/-- C10 witness: the concrete frame carrying both the text "Hi" and the reason
"stop" (with usage counters) translates to the text event alone. -/
theorem c10_text_shadows_finish_reason_witness :
    bothFrame.choices.head? = some ⟨0, some ⟨some "Hi"⟩, some "stop"⟩ ∧
    convertOpenAIStreamChunkToAnthropic "msg_0" bothFrame none =
      some (AnthropicEvent.contentBlockDelta 0 "Hi") :=
  ⟨by decide,
    c10_text_shadows_finish_reason "msg_0" bothFrame none ⟨0, some ⟨some "Hi"⟩, some "stop"⟩
      ⟨some "Hi"⟩ "Hi" "stop" (by decide) (by decide) (by decide) (by decide) (by decide)
      (by decide)⟩

end KimiProxy
